import Mathlib

/-!
# NebulaForge procedural generator — shallow embedding

A faithful Lean model of `src/backend/src/proceduralGenerator.ts`, the
deterministic procedural 3D-blueprint generator, together with the theorems
settling the specification's claims about it.

Modelling conventions:
* JavaScript numbers are modelled as exact rationals (`ℚ`); every integer
  intermediate in the generator is far below 2^53, so the integer arithmetic
  (LCG state, segment counts, floors, rounds) is exact in both worlds.
* The stateful closure returned by `createGenerator` is modelled as explicit
  state passing: the LCG state is a `Nat`, and each `rand()` call is one
  application of the step function, threaded in the source's call order.
* JavaScript `undefined` is `Option.none`; `x ?? y` is `Option.getD`/`orElse`;
  out-of-bounds (or negative) array indexing yields `none`; property access on
  a possibly-`undefined` object is modelled by propagating `none` (the one
  place this can happen, `pickTheme`'s random pick feeding `resolvePalette`,
  makes `generateModelSpec` return `Option`).
* `crypto.createHash('sha256')` hashes the UTF-8 bytes of the prompt; SHA-256
  is implemented here concretely over byte lists so seeds are computable.
-/

namespace NebulaForge

set_option maxRecDepth 16000

/- Batteries marks the `Rat` arithmetic operations `@[irreducible]`; concrete
evaluation of the embedding (witnesses and counterexamples) needs them to
unfold during elaboration, so restore the default reducibility locally. -/
attribute [local semireducible] Rat.ofScientific Rat.mul Rat.inv Rat.add Rat.sub

/-! ## SHA-256 over byte lists (the `crypto` dependency of `createSeed`) -/

/-- UTF-8 encoding of one character (code point) as bytes. -/
def utf8EncodeCharBytes (c : Char) : List Nat :=
  let n := c.toNat
  if n < 128 then [n]
  else if n < 2048 then
    [192 + n / 64, 128 + n % 64]
  else if n < 65536 then
    [224 + n / 4096, 128 + (n / 64) % 64, 128 + n % 64]
  else
    [240 + n / 262144, 128 + (n / 4096) % 64, 128 + (n / 64) % 64, 128 + n % 64]

/-- UTF-8 bytes of a string, as `crypto.createHash(...).update(prompt)` sees it. -/
def strBytes (s : String) : List Nat :=
  (s.data.map utf8EncodeCharBytes).flatten

/-- 2^32, the modulus of SHA-256 word arithmetic. -/
def M32 : Nat := 4294967296

/-- Rotate a 32-bit word right by n bits. -/
def rotr32 (x n : Nat) : Nat :=
  (x >>> n) ||| ((x <<< (32 - n)) % M32)

def add32 (a b : Nat) : Nat := (a + b) % M32

/-- The 64 round constants of the SHA-256 compression function, written in
decimal. -/
def sha256K : List Nat :=
  [1116352408, 1899447441, 3049323471, 3921009573, 961987163,
   1508970993, 2453635748, 2870763221, 3624381080, 310598401,
   607225278, 1426881987, 1925078388, 2162078206, 2614888103,
   3248222580, 3835390401, 4022224774, 264347078, 604807628,
   770255983, 1249150122, 1555081692, 1996064986, 2554220882,
   2821834349, 2952996808, 3210313671, 3336571891, 3584528711,
   113926993, 338241895, 666307205, 773529912, 1294757372,
   1396182291, 1695183700, 1986661051, 2177026350, 2456956037,
   2730485921, 2820302411, 3259730800, 3345764771, 3516065817,
   3600352804, 4094571909, 275423344, 430227734, 506948616,
   659060556, 883997877, 958139571, 1322822218, 1537002063,
   1747873779, 1955562222, 2024104815, 2227730452, 2361852424,
   2428436474, 2756734187, 3204031479, 3329325298]

/-- The eight 32-bit working variables of SHA-256. -/
structure Sha256State where
  a : Nat
  b : Nat
  c : Nat
  d : Nat
  e : Nat
  f : Nat
  g : Nat
  h : Nat

/-- The initial working variables (the fractional parts of the square roots of
the first eight primes), written in decimal. -/
def sha256Init : Sha256State :=
  ⟨1779033703, 3144134277, 1013904242, 2773480762, 1359893119, 2600822924, 528734635, 1541459225⟩

/-- Big-endian byte expansion: `n` bytes of `v`. -/
def bytesBE (n v : Nat) : List Nat :=
  (List.range n).map (fun i => (v >>> (8 * (n - 1 - i))) % 256)

/-- SHA-256 message padding: `0x80`, zeros to 56 mod 64, then the 64-bit
bit length. -/
def sha256Pad (msg : List Nat) : List Nat :=
  let len := msg.length
  let z := (119 - len % 64) % 64
  msg ++ [0x80] ++ List.replicate z 0 ++ bytesBE 8 (8 * len)

/-- Group bytes into big-endian 32-bit words (input length a multiple of 4). -/
def toWords : List Nat → List Nat
  | b0 :: b1 :: b2 :: b3 :: rest =>
    (((b0 * 256 + b1) * 256 + b2) * 256 + b3) :: toWords rest
  | _ => []

/-- Split a list into chunks of `k` elements; the fuel argument (instantiated
with the list length) makes the recursion structural. -/
def chunksGo (k : Nat) : Nat → List Nat → List (List Nat)
  | 0, _ => []
  | _, [] => []
  | fuel + 1, l => l.take k :: chunksGo k fuel (l.drop k)

def chunks (k : Nat) (l : List Nat) : List (List Nat) :=
  chunksGo k l.length l

/-- Message-schedule extension: extend the 16 block words to 64. -/
def extendLoop : Nat → List Nat → List Nat
  | 0, w => w
  | fuel + 1, w =>
    let i := w.length
    let w15 := (w.get? (i - 15)).getD 0
    let w2 := (w.get? (i - 2)).getD 0
    let w16 := (w.get? (i - 16)).getD 0
    let w7 := (w.get? (i - 7)).getD 0
    let s0 := (rotr32 w15 7) ^^^ (rotr32 w15 18) ^^^ (w15 >>> 3)
    let s1 := (rotr32 w2 17) ^^^ (rotr32 w2 19) ^^^ (w2 >>> 10)
    extendLoop fuel (w ++ [(w16 + s0 + w7 + s1) % M32])

def sha256Schedule (block : List Nat) : List Nat :=
  extendLoop 48 (toWords block)

/-- One SHA-256 compression round (`kw` = round constant and schedule word). -/
def sha256Round (st : Sha256State) (kw : Nat × Nat) : Sha256State :=
  let s1 := (rotr32 st.e 6) ^^^ (rotr32 st.e 11) ^^^ (rotr32 st.e 25)
  let ch := (st.e &&& st.f) ^^^ ((M32 - 1 - st.e) &&& st.g)
  let temp1 := (st.h + s1 + ch + kw.1 + kw.2) % M32
  let s0 := (rotr32 st.a 2) ^^^ (rotr32 st.a 13) ^^^ (rotr32 st.a 22)
  let maj := (st.a &&& st.b) ^^^ (st.a &&& st.c) ^^^ (st.b &&& st.c)
  let temp2 := (s0 + maj) % M32
  ⟨(temp1 + temp2) % M32, st.a, st.b, st.c, (st.d + temp1) % M32, st.e, st.f, st.g⟩

/-- Process one 64-byte block. -/
def sha256Block (st : Sha256State) (block : List Nat) : Sha256State :=
  let w := sha256Schedule block
  let r := (sha256K.zip w).foldl sha256Round st
  ⟨add32 st.a r.a, add32 st.b r.b, add32 st.c r.c, add32 st.d r.d,
   add32 st.e r.e, add32 st.f r.f, add32 st.g r.g, add32 st.h r.h⟩

/-- SHA-256 digest of a byte list, as its 32 bytes. -/
def sha256 (msg : List Nat) : List Nat :=
  let st := (chunks 64 (sha256Pad msg)).foldl sha256Block sha256Init
  bytesBE 4 st.a ++ bytesBE 4 st.b ++ bytesBE 4 st.c ++ bytesBE 4 st.d ++
  bytesBE 4 st.e ++ bytesBE 4 st.f ++ bytesBE 4 st.g ++ bytesBE 4 st.h

/-! ## JavaScript semantics helpers -/

/-- ASCII lower-casing of one character (`String.prototype.toLowerCase` on the
ASCII prompts and keyword tables in play). -/
def jsToLowerChar (c : Char) : Char :=
  if 'A' ≤ c ∧ c ≤ 'Z' then Char.ofNat (c.toNat + 32) else c

def jsToLower (s : String) : String :=
  String.mk (s.data.map jsToLowerChar)

/-- Substring containment on character lists: `needle` occurs contiguously. -/
def listIncl (needle : List Char) : List Char → Bool
  | [] => needle.isEmpty
  | c :: t => needle.isPrefixOf (c :: t) || listIncl needle t

/-- `String.prototype.includes`. -/
def jsIncludes (s sub : String) : Bool :=
  listIncl sub.data s.data

/-- `includesAny` from the source: some term occurs in the text. -/
def includesAny (text : String) (terms : List String) : Bool :=
  terms.any (fun t => jsIncludes text t)

/-- `String.prototype.trim` whitespace (the ASCII part, which covers every
string the claims quantify over). -/
def jsWhitespace (c : Char) : Bool :=
  c = ' ' || c = '\t' || c = '\n' || c = '\r' || c.toNat = 11 || c.toNat = 12

def jsTrim (s : String) : String :=
  String.mk (((s.data.dropWhile jsWhitespace).reverse.dropWhile jsWhitespace).reverse)

/-- JavaScript array indexing with a possibly negative integer index:
out-of-range gives `undefined`. -/
def jsIndex {α : Type} (l : List α) (i : ℤ) : Option α :=
  if 0 ≤ i then l.get? i.toNat else none

/-- `Array.from(new Set(xs))`: de-duplicate keeping first occurrences. -/
def jsDedupGo (seen : List String) : List String → List String
  | [] => []
  | x :: t => if seen.contains x then jsDedupGo seen t else x :: jsDedupGo (x :: seen) t

def jsDedup (l : List String) : List String :=
  jsDedupGo [] l

/-- `Math.PI` as the exact rational value of the IEEE-754 double. -/
def mathPI : ℚ := 884279719003555 / 281474976710656

/-- `Math.round`: round half toward positive infinity. -/
def jsRound (q : ℚ) : ℤ := Int.floor (q + 1/2)

/-! ## Data model (`proceduralGenerator.ts` interfaces) -/

/-- The `GeometryKind` string union. -/
inductive GeometryKind
  | sphere
  | box
  | torus
  | cylinder
  | cone
  | icosahedron
deriving DecidableEq, Repr

/-- The geometry kind as its source string (for mesh-id interpolation);
`undefined` interpolates as the string "undefined". -/
def kindStr : Option GeometryKind → String
  | some .sphere => "sphere"
  | some .box => "box"
  | some .torus => "torus"
  | some .cylinder => "cylinder"
  | some .cone => "cone"
  | some .icosahedron => "icosahedron"
  | none => "undefined"

/-- The environment tag union of `ProceduralModelSpec['environment']`. -/
inductive EnvTag
  | studio
  | city
  | sunset
  | nebula
deriving DecidableEq, Repr

/-- `GeometrySpec`: the tagged union over the six primitive kinds, with each
variant's numeric fields (segment counts and detail as integers, the rest as
rationals, `openEnded` as the source's boolean). -/
inductive GeometrySpec
  | sphere (radius : ℚ) (widthSegments heightSegments : ℤ)
  | box (width height depth : ℚ)
  | torus (radius tube : ℚ) (radialSegments tubularSegments : ℤ) (arc : ℚ)
  | cylinder (radiusTop radiusBottom height : ℚ) (radialSegments heightSegments : ℤ)
      (openEnded : Bool)
  | cone (radius height : ℚ) (radialSegments heightSegments : ℤ)
  | icosahedron (radius : ℚ) (detail : ℤ)
deriving DecidableEq, Repr

/-- `MaterialSpec`. `emissive` is genuinely optional (`undefined` on secondary
meshes); `wireframe`/`useTexture` are assigned a boolean on every construction
site in the source, so they are plain `Bool` here. -/
structure MaterialSpec where
  color : String
  metalness : ℚ
  roughness : ℚ
  emissive : Option String
  wireframe : Bool
  useTexture : Bool
deriving DecidableEq, Repr

/-- `MeshModifiers`: all six fields optional, as in the source. -/
structure MeshModifiers where
  noiseAmplitude : Option ℚ
  noiseFrequency : Option ℚ
  noiseOffset : Option ℚ
  twistStrength : Option ℚ
  taperStrength : Option ℚ
  squash : Option ℚ
deriving DecidableEq, Repr

/-- A 3-component vector (`Vec3 = [number, number, number]`). -/
structure Vec3 where
  x : ℚ
  y : ℚ
  z : ℚ
deriving DecidableEq, Repr

structure MeshTransform where
  position : Vec3
  rotation : Vec3
  scale : Vec3
deriving DecidableEq, Repr

/-- `MeshDescriptor`. `modifiers` is optional in the source type but assigned
on every construction site, so it is a plain field here. -/
structure MeshDescriptor where
  id : String
  name : String
  geometry : GeometrySpec
  material : MaterialSpec
  transform : MeshTransform
  modifiers : MeshModifiers
deriving DecidableEq, Repr

/-- `ProceduralModelSpec`, the blueprint root. -/
structure ProceduralModelSpec where
  prompt : String
  seed : Nat
  environment : EnvTag
  accentColor : String
  meshes : List MeshDescriptor
deriving DecidableEq, Repr

/-- Theme base-modifier magnitudes (`ThemePreset['modifiers']`). -/
structure ThemeModifiers where
  noiseAmplitude : ℚ
  noiseFrequency : ℚ
  twistStrength : ℚ
  taperStrength : ℚ
  squash : ℚ
deriving DecidableEq, Repr

/-- `ThemePreset` catalog entry. -/
structure ThemePreset where
  id : String
  keywords : List String
  primaryGeometry : GeometryKind
  secondaryGeometries : List GeometryKind
  palette : List String
  baseMetalness : ℚ
  baseRoughness : ℚ
  environment : EnvTag
  accentColor : String
  modifiers : ThemeModifiers
deriving DecidableEq, Repr

/-! ## Static catalogs -/

def THEME_PRESETS : List ThemePreset :=
  [{ id := "mechanical",
     keywords := ["robot", "mech", "machine", "engine", "industrial", "drone", "armor", "cyber",
                  "android", "gear", "factory"],
     primaryGeometry := .box,
     secondaryGeometries := [.cylinder, .box, .torus],
     palette := ["#94a3b8", "#facc15", "#0f172a", "#cbd5f5"],
     baseMetalness := 0.85, baseRoughness := 0.25,
     environment := .city,
     accentColor := "#facc15",
     modifiers := { noiseAmplitude := 0.08, noiseFrequency := 2.4, twistStrength := 0.15,
                    taperStrength := 0.05, squash := 0.12 } },
   { id := "organic",
     keywords := ["creature", "biologic", "organic", "flora", "nature", "plant", "beast", "animal",
                  "character", "dragon", "fauna", "alien"],
     primaryGeometry := .sphere,
     secondaryGeometries := [.cone, .sphere, .icosahedron],
     palette := ["#34d399", "#0f766e", "#bef264", "#ecfccb"],
     baseMetalness := 0.2, baseRoughness := 0.7,
     environment := .sunset,
     accentColor := "#bef264",
     modifiers := { noiseAmplitude := 0.35, noiseFrequency := 1.3, twistStrength := 0.45,
                    taperStrength := 0.35, squash := 0.25 } },
   { id := "aero",
     keywords := ["spaceship", "jet", "rocket", "craft", "vehicle", "car", "fighter", "aircraft",
                  "shuttle", "hover", "ship", "drone"],
     primaryGeometry := .cylinder,
     secondaryGeometries := [.cone, .box, .torus],
     palette := ["#60a5fa", "#f8fafc", "#0369a1", "#e0f2fe"],
     baseMetalness := 0.65, baseRoughness := 0.35,
     environment := .studio,
     accentColor := "#60a5fa",
     modifiers := { noiseAmplitude := 0.12, noiseFrequency := 3.1, twistStrength := 0.25,
                    taperStrength := 0.15, squash := 0.2 } },
   { id := "abstract",
     keywords := ["abstract", "symbol", "glyph", "portal", "totem", "sculpture", "sigil", "icon",
                  "logo"],
     primaryGeometry := .icosahedron,
     secondaryGeometries := [.torus, .sphere, .cone],
     palette := ["#c084fc", "#a855f7", "#f472b6", "#fdf2f8"],
     baseMetalness := 0.35, baseRoughness := 0.45,
     environment := .nebula,
     accentColor := "#c084fc",
     modifiers := { noiseAmplitude := 0.28, noiseFrequency := 2.1, twistStrength := 0.35,
                    taperStrength := 0.2, squash := 0.3 } }]

def vectorNameSeeds : List String :=
  ["Nebula", "Axiom", "Vertex", "Pulse", "Aurora", "Helix", "Solace"]

def geometryTitles : GeometryKind → String
  | .sphere => "Core"
  | .box => "Hull"
  | .torus => "Ring"
  | .cylinder => "Column"
  | .cone => "Spire"
  | .icosahedron => "Shard"

/-- The detail-bias classification. -/
inductive DetailBias
  | neutral
  | organic
  | mechanical
deriving DecidableEq, Repr

/-- `PromptHints`. `meshTarget` as an integer. -/
structure PromptHints where
  geometryPreference : Option GeometryKind
  paletteOverride : Option (List String)
  accentColor : Option String
  environmentHint : Option EnvTag
  preferredThemeId : Option String
  detailBias : DetailBias
  meshTarget : Option ℤ
deriving DecidableEq, Repr

/-- `DescriptorContext`. -/
structure DescriptorContext where
  palette : List String
  accentColor : String
  primaryGeometry : Option GeometryKind
  detailBias : DetailBias
deriving DecidableEq, Repr

/-- `GEOMETRY_KEYWORDS`, in declaration (iteration) order. -/
def GEOMETRY_KEYWORDS : List (GeometryKind × List String) :=
  [(.sphere, ["orb", "sphere", "globe", "planet", "eye", "bubble", "core"]),
   (.box, ["cube", "block", "fortress", "monolith", "crate", "terminal"]),
   (.torus, ["ring", "halo", "loop", "portal", "gateway", "donut"]),
   (.cylinder, ["tower", "pillar", "rocket", "barrel", "staff", "sword", "blade", "engine",
                "cannon"]),
   (.cone, ["spike", "spire", "pyramid", "mountain", "fang", "icicle"]),
   (.icosahedron, ["crystal", "shard", "polyhedron", "geode", "gem", "diamond"])]

/-- `COLOR_KEYWORDS`, in declaration (iteration) order. -/
def COLOR_KEYWORDS : List (String × List String) :=
  [("#ef4444", ["red", "scarlet", "crimson", "ruby"]),
   ("#f59e0b", ["gold", "amber", "sunset", "bronze", "copper"]),
   ("#3b82f6", ["blue", "azure", "sapphire", "cyan"]),
   ("#22c55e", ["green", "emerald", "jade", "lime"]),
   ("#a855f7", ["purple", "violet", "magenta", "neon"]),
   ("#f472b6", ["pink", "rose", "fuchsia"]),
   ("#e5e7eb", ["white", "silver", "pearl"]),
   ("#1f2937", ["black", "obsidian", "onyx", "shadow"]),
   ("#f97316", ["orange", "sunrise", "ember"]),
   ("#94a3b8", ["steel", "gray", "gunmetal"])]

/-- `ENVIRONMENT_KEYWORDS`, in declaration (iteration) order. -/
def ENVIRONMENT_KEYWORDS : List (EnvTag × List String) :=
  [(.studio, ["studio", "product", "turntable", "showroom"]),
   (.city, ["city", "urban", "neon", "street", "industrial"]),
   (.sunset, ["sunset", "dusk", "golden hour", "desert", "forest"]),
   (.nebula, ["space", "nebula", "galaxy", "cosmic", "void"])]

def MULTI_OBJECT_KEYWORDS : List String :=
  ["fleet", "swarm", "array", "cluster", "forest", "army", "collection", "pack", "hive"]

def SINGLE_OBJECT_KEYWORDS : List String :=
  ["statue", "bust", "monolith", "idol", "single", "solo", "portrait"]

/-- `DETAIL_BIAS_KEYWORDS.organic`. -/
def DETAIL_BIAS_ORGANIC : List String :=
  ["creature", "organic", "flora", "fauna", "dragon", "beast", "character", "alien", "mythic"]

/-- `DETAIL_BIAS_KEYWORDS.mechanical`. -/
def DETAIL_BIAS_MECHANICAL : List String :=
  ["robot", "mech", "engine", "industrial", "armor", "cyber", "drone", "vehicle", "turret"]

def TEMPLATE_DEFAULT_PALETTE : List String := ["#d4b48c", "#1f1f1f", "#f5f5f5"]

/-! ## RNG and seed -/

/-- `createSeed`: the integer value of the first 8 hex characters of the
SHA-256 digest of the prompt — i.e. the first 4 digest bytes, big-endian. -/
def createSeed (pr : String) : Nat :=
  ((sha256 (strBytes pr)).take 4).foldl (fun a b => a * 256 + b) 0

/-- `createGenerator`: the generator closure as a state-transition step.
One `rand()` call from state `value` updates
`value = (value * 16807) mod 2147483647` and returns
`(value - 1) / 2147483646`; the pair is (draw, new state). -/
def createGenerator (value : Nat) : ℚ × Nat :=
  let v := (value * 16807) % 2147483647
  (((v : ℚ) - 1) / 2147483646, v)

/-- `randomRange`. -/
def randomRange (lo hi : ℚ) (s : Nat) : ℚ × Nat :=
  let step := createGenerator s
  (lo + (hi - lo) * step.1, step.2)

/-- `clamp` on rationals (`Math.min(max, Math.max(min, value))`). -/
def clamp (value lo hi : ℚ) : ℚ := min hi (max lo value)

/-- `clamp` restricted to the integer-valued call sites (mesh count, palette
index), with the same min/max semantics. -/
def clampI (value lo hi : ℤ) : ℤ := min hi (max lo value)

/-! ## Hint extraction, palette, theme -/

/-- `analyzePromptHints`. -/
def analyzePromptHints (pr : String) : PromptHints :=
  let normalized := jsToLower pr
  let geometryPreference := (GEOMETRY_KEYWORDS.find? (fun kv => includesAny normalized kv.2)).map (·.1)
  let paletteAcc := COLOR_KEYWORDS.foldl
    (fun acc kv => if includesAny normalized kv.2 then acc ++ [kv.1] else acc) []
  let environmentHint := (ENVIRONMENT_KEYWORDS.find? (fun kv => includesAny normalized kv.2)).map (·.1)
  let preferredThemeId :=
    (THEME_PRESETS.find? (fun pre => pre.keywords.any (fun k => jsIncludes normalized k))).map (·.id)
  let detailBias :=
    if includesAny normalized DETAIL_BIAS_ORGANIC then DetailBias.organic
    else if includesAny normalized DETAIL_BIAS_MECHANICAL then DetailBias.mechanical
    else DetailBias.neutral
  let meshTarget : Option ℤ :=
    if includesAny normalized SINGLE_OBJECT_KEYWORDS then some 1
    else if includesAny normalized MULTI_OBJECT_KEYWORDS then some 4
    else none
  { geometryPreference,
    paletteOverride := if paletteAcc.isEmpty then none else some (jsDedup paletteAcc),
    accentColor := paletteAcc.head?,
    environmentHint, preferredThemeId, detailBias, meshTarget }

/-- `resolvePalette`. -/
def resolvePalette (theme : ThemePreset) (hints : PromptHints) : List String × String :=
  match hints.paletteOverride with
  | none => (theme.palette, hints.accentColor.getD theme.accentColor)
  | some ov =>
    if ov.isEmpty then (theme.palette, hints.accentColor.getD theme.accentColor)
    else
      let merged := jsDedup (ov ++ theme.palette)
      let palette := merged.take (max theme.palette.length merged.length)
      (palette, (hints.accentColor.orElse (fun _ => palette.head?)).getD theme.accentColor)

/-- `pickTheme`. The random pick indexes `THEME_PRESETS` with a floored draw;
a negative draw makes that index `undefined`, which the source would crash on
one line later (`theme.palette`), modelled as `none`. -/
def pickTheme (pr : String) (s : Nat) (hints : PromptHints) : Option ThemePreset × Nat :=
  let byKeyword := fun (_ : Unit) =>
    let normalized := jsToLower pr
    match THEME_PRESETS.find? (fun pre => pre.keywords.any (fun k => jsIncludes normalized k)) with
    | some matched => (some matched, s)
    | none =>
      let step := createGenerator s
      (jsIndex THEME_PRESETS (Int.floor (step.1 * (THEME_PRESETS.length : ℚ))), step.2)
  match hints.preferredThemeId with
  | some tid =>
    match THEME_PRESETS.find? (fun pre => pre.id == tid) with
    | some explicit => (some explicit, s)
    | none => byKeyword ()
  | none => byKeyword ()

/-! ## Templates -/

/-- `createTemplateId`. -/
def createTemplateId (pfx : String) (s : Nat) : String × Nat :=
  let step := createGenerator s
  (pfx ++ "-" ++ toString (jsRound (step.1 * 1000000)), step.2)

/-- The `cricket-bat` template's `buildMeshes`, drawing the three part ids in
array-literal order. `accentColor` is a plain string at the call site, so the
source's `accentColor ?? colors[2] ?? '#f97316'` collapses to it. -/
def cricketBatBuildMeshes (palette : List String) (accentColor : String) (s : Nat) :
    List MeshDescriptor × Nat :=
  let colors := if palette.isEmpty then TEMPLATE_DEFAULT_PALETTE else palette
  let wood := (colors.get? 0).getD "#d4b48c"
  let grip := (colors.get? 1).getD "#171717"
  let sticker := accentColor
  let tBlade := createTemplateId "bat-blade" s
  let blade : MeshDescriptor :=
    { id := tBlade.1, name := "Cricket-Blade",
      geometry := .box 0.45 2.2 0.32,
      transform := { position := ⟨0, 0.4, 0⟩,
                     rotation := ⟨-(mathPI * 0.02), 0, mathPI * 0.05⟩,
                     scale := ⟨1, 1, 1⟩ },
      material := { color := wood, metalness := 0.08, roughness := 0.72,
                    emissive := none, wireframe := false, useTexture := true },
      modifiers := { noiseAmplitude := some 0.015, noiseFrequency := none, noiseOffset := none,
                     twistStrength := none, taperStrength := some 0.3, squash := some 0.12 } }
  let tHandle := createTemplateId "bat-handle" tBlade.2
  let handle : MeshDescriptor :=
    { id := tHandle.1, name := "Cricket-Handle",
      geometry := .cylinder 0.12 0.15 1.5 48 1 false,
      transform := { position := ⟨0, 1.35, -0.05⟩,
                     rotation := ⟨mathPI / 2, 0, 0⟩,
                     scale := ⟨1, 1, 1⟩ },
      material := { color := grip, metalness := 0.05, roughness := 0.45,
                    emissive := none, wireframe := false, useTexture := false },
      modifiers := { noiseAmplitude := some 0.03, noiseFrequency := none, noiseOffset := none,
                     twistStrength := some 0.25, taperStrength := none, squash := none } }
  let tCap := createTemplateId "bat-cap" tHandle.2
  let cap : MeshDescriptor :=
    { id := tCap.1, name := "Bat-Logo-Panel",
      geometry := .box 0.4 0.9 0.05,
      transform := { position := ⟨0, 0.2, 0.18⟩,
                     rotation := ⟨0, 0, mathPI * 0.05⟩,
                     scale := ⟨1, 1, 1⟩ },
      material := { color := sticker, metalness := 0.2, roughness := 0.4,
                    emissive := some accentColor, wireframe := false, useTexture := false },
      modifiers := { noiseAmplitude := some 0.01, noiseFrequency := none, noiseOffset := none,
                     twistStrength := none, taperStrength := none, squash := none } }
  ([blade, handle, cap], tCap.2)

/-- `ShapeTemplate` (the build function takes palette, accent color, and the
RNG state). -/
structure ShapeTemplate where
  id : String
  keywords : List String
  environment : Option EnvTag
  buildMeshes : List String → String → Nat → List MeshDescriptor × Nat

def SHAPE_TEMPLATES : List ShapeTemplate :=
  [{ id := "cricket-bat",
     keywords := ["cricket bat", "bat"],
     environment := some .studio,
     buildMeshes := cricketBatBuildMeshes }]

/-- `tryTemplateSpec`. -/
def tryTemplateSpec (pr : String) (hints : PromptHints) (seed : Nat) :
    Option ProceduralModelSpec :=
  let normalized := jsToLower pr
  match SHAPE_TEMPLATES.find? (fun shape => includesAny normalized shape.keywords) with
  | none => none
  | some template =>
    let palette :=
      match hints.paletteOverride with
      | some ov => if ov.isEmpty then TEMPLATE_DEFAULT_PALETTE else ov
      | none => TEMPLATE_DEFAULT_PALETTE
    -- `hints.accentColor ?? palette[0]`; both palette branches are non-empty,
    -- so the final default is unreachable.
    let accentColor := (hints.accentColor.orElse (fun _ => palette.head?)).getD ""
    some { prompt := pr, seed,
           environment := (template.environment.orElse (fun _ => hints.environmentHint)).getD .studio,
           accentColor, meshes := (template.buildMeshes palette accentColor seed).1 }

/-! ## Mesh composition -/

/-- `createGeometry`. The `kind` may be `undefined` (see `selectGeometryKind`);
the switch's `default` branch makes that an icosahedron. Draws happen in the
source's field order. -/
def createGeometry (kind : Option GeometryKind) (s : Nat) : GeometrySpec × Nat :=
  match kind with
  | some .sphere =>
    let r := randomRange 1.1 1.8 s
    let dw := createGenerator r.2
    let dh := createGenerator dw.2
    (.sphere r.1 (32 + Int.floor (dw.1 * 16)) (32 + Int.floor (dh.1 * 16)), dh.2)
  | some .box =>
    let w := randomRange 1 2.2 s
    let h := randomRange 1 1.6 w.2
    let d := randomRange 1 2 h.2
    (.box w.1 h.1 d.1, d.2)
  | some .torus =>
    let r := randomRange 1.2 1.9 s
    let tu := randomRange 0.2 0.5 r.2
    let dr := createGenerator tu.2
    let dt := createGenerator dr.2
    (.torus r.1 tu.1 (16 + Int.floor (dr.1 * 16)) (48 + Int.floor (dt.1 * 32)) (mathPI * 2), dt.2)
  | some .cylinder =>
    let rt := randomRange 0.5 1.2 s
    let rb := randomRange 0.8 1.5 rt.2
    let h := randomRange 2 3.2 rb.2
    let dr := createGenerator h.2
    let dh := createGenerator dr.2
    (.cylinder rt.1 rb.1 h.1 (32 + Int.floor (dr.1 * 16)) (1 + Int.floor (dh.1 * 3)) false, dh.2)
  | some .cone =>
    let r := randomRange 0.7 1.4 s
    let h := randomRange 1.4 2.4 r.2
    let dr := createGenerator h.2
    let dh := createGenerator dr.2
    (.cone r.1 h.1 (32 + Int.floor (dr.1 * 16)) (1 + Int.floor (dh.1 * 2)), dh.2)
  | some .icosahedron | none =>
    let r := randomRange 1.2 1.7 s
    let dd := createGenerator r.2
    (.icosahedron r.1 (Int.floor (dd.1 * 2)), dd.2)

/-- `createTransform`. -/
def createTransform (s : Nat) (index : ℕ) : MeshTransform × Nat :=
  if index = 0 then
    ({ position := ⟨0, 0, 0⟩, rotation := ⟨0, 0, 0⟩, scale := ⟨1, 1, 1⟩ }, s)
  else
    let px := randomRange (-1.2) 1.2 s
    let py := randomRange (-0.2) 1.2 px.2
    let pz := randomRange (-1.1) 1.1 py.2
    let rx := randomRange (-0.4) 0.4 pz.2
    let ry := randomRange 0 (mathPI * 2) rx.2
    let rz := randomRange (-0.4) 0.4 ry.2
    let sx := randomRange 0.45 0.9 rz.2
    let sy := randomRange 0.45 0.9 sx.2
    let sz := randomRange 0.45 0.9 sy.2
    ({ position := ⟨px.1, py.1, pz.1⟩, rotation := ⟨rx.1, ry.1, rz.1⟩,
       scale := ⟨sx.1, sy.1, sz.1⟩ }, sz.2)

/-- `createMeshName`. A negative draw would make the "vector" word lookup
`undefined`, which interpolates as "undefined". -/
def createMeshName (pr : String) (g : Option GeometryKind) (s : Nat) (index : ℕ) :
    String × Nat :=
  let primaryDescriptor := ((pr.splitOn " ").find? (fun w => w ≠ "")).getD "Artifact"
  let base := match g with
    | some k => geometryTitles k
    | none => "Element"
  let step := createGenerator s
  let pfx := (jsIndex vectorNameSeeds
    (Int.floor (step.1 * (vectorNameSeeds.length : ℚ)))).getD "undefined"
  (pfx ++ "-" ++ base ++ "-" ++ (if index = 0 then "Prime" else primaryDescriptor), step.2)

/-- The geometry-kind selection of `createMeshDescriptor`:
`geometryPool[floor(rand*len)] ?? fallbackPool[floor(rand*len)]` — the second
draw happens only when the first index misses (JS `??` is lazy). -/
def selectGeometryKind (pool fallbackPool : List GeometryKind) (s : Nat) :
    Option GeometryKind × Nat :=
  let step := createGenerator s
  match jsIndex pool (Int.floor (step.1 * (pool.length : ℚ))) with
  | some g => (some g, step.2)
  | none =>
    let step2 := createGenerator step.2
    (jsIndex fallbackPool (Int.floor (step2.1 * (fallbackPool.length : ℚ))), step2.2)

/-- The primary-mesh candidate pool of `createMeshDescriptor`
(`[context.primaryGeometry ?? theme.primaryGeometry, theme.primaryGeometry]`;
the source's `.filter(Boolean)` drops nothing since kind strings are truthy). -/
def primaryCandidates (ctxPrimary : Option GeometryKind) (theme : ThemePreset) :
    List GeometryKind :=
  [ctxPrimary.getD theme.primaryGeometry, theme.primaryGeometry]

/-- The secondary-mesh candidate pool of `createMeshDescriptor`. -/
def secondaryCandidates (ctxPrimary : Option GeometryKind) (theme : ThemePreset) :
    List GeometryKind :=
  (match ctxPrimary with
   | some g => [g]
   | none => []) ++ theme.secondaryGeometries

/-- `createMeshDescriptor`, with every `rand()` call threaded in source order:
kind selection, geometry, transform, palette index (secondary meshes on
multi-color palettes only), six modifier jitters, wireframe (secondary meshes
only), id suffix, name word. -/
def createMeshDescriptor (theme : ThemePreset) (pr : String) (s : Nat) (index : ℕ)
    (context : DescriptorContext) : MeshDescriptor × Nat :=
  let palette := if context.palette.isEmpty then theme.palette else context.palette
  let geometryPool := if index = 0 then primaryCandidates context.primaryGeometry theme
    else secondaryCandidates context.primaryGeometry theme
  let sel := selectGeometryKind geometryPool theme.secondaryGeometries s
  let geometryKind := sel.1
  let geo := createGeometry geometryKind sel.2
  let geometry := geo.1
  let tr := createTransform geo.2 index
  let transform := tr.1
  let rawIndex : ℤ × Nat :=
    if index = 0 ∨ palette.length = 1 then ((0 : ℤ), tr.2)
    else
      let step := createGenerator tr.2
      (1 + Int.floor (step.1 * (max 1 ((palette.length : ℤ) - 1) : ℤ)), step.2)
  let paletteIndex := clampI rawIndex.1 0 (max 0 ((palette.length : ℤ) - 1))
  let detailMultiplier : ℚ :=
    match context.detailBias with
    | .organic => 1.25
    | .mechanical => 0.65
    | .neutral => 1
  let j1 := randomRange 0.9 1.4 rawIndex.2
  let j2 := randomRange 0.8 1.2 j1.2
  let dOff := createGenerator j2.2
  let j3 := randomRange 0.7 1.3 dOff.2
  let j4 := randomRange 0.5 1.2 j3.2
  let j5 := randomRange 0.8 1.2 j4.2
  let modifiers0 : MeshModifiers :=
    { noiseAmplitude := some (theme.modifiers.noiseAmplitude * j1.1 * detailMultiplier),
      noiseFrequency := some (theme.modifiers.noiseFrequency * j2.1),
      noiseOffset := some (dOff.1 * mathPI * 2),
      twistStrength := some (theme.modifiers.twistStrength * j3.1 * detailMultiplier),
      taperStrength := some (theme.modifiers.taperStrength * j4.1 * detailMultiplier),
      squash := some (theme.modifiers.squash * j5.1) }
  let modifiers :=
    if context.detailBias = .mechanical then
      { modifiers0 with
        noiseAmplitude := some ((modifiers0.noiseAmplitude.getD 0) * 0.8),
        taperStrength := some ((modifiers0.taperStrength.getD 0) * 0.7),
        squash := some ((modifiers0.squash.getD 0) * 0.6) }
    else modifiers0
  let metalnessBias : ℚ :=
    match context.detailBias with
    | .organic => -0.2
    | .mechanical => 0.15
    | .neutral => 0
  let roughnessBias : ℚ :=
    match context.detailBias with
    | .organic => 0.2
    | .mechanical => -0.1
    | .neutral => 0
  let wf : Bool × Nat :=
    if 0 < index then
      let step := createGenerator j5.2
      (decide (step.1 > 0.85), step.2)
    else (false, j5.2)
  let material : MaterialSpec :=
    { color := ((jsIndex palette paletteIndex).orElse (fun _ => theme.palette.get? 0)).getD "",
      metalness := clamp (theme.baseMetalness + metalnessBias) 0 1,
      roughness := clamp (theme.baseRoughness + roughnessBias) 0 1,
      emissive := if index = 0 then some context.accentColor else none,
      wireframe := wf.1, useTexture := index = 0 }
  let dId := createGenerator wf.2
  let meshId := kindStr geometryKind ++ "-" ++ toString index ++ "-" ++
    toString (jsRound (dId.1 * 1000000))
  let nm := createMeshName pr geometryKind dId.2 index
  ({ id := meshId, name := nm.1, geometry, material, transform, modifiers }, nm.2)

/-- The mesh-building loop of `generateModelSpec` (`for i < clampedMeshCount`),
as structural recursion on the remaining count. -/
def meshLoop (theme : ThemePreset) (pr : String) (context : DescriptorContext) :
    ℕ → ℕ → Nat → List MeshDescriptor × Nat
  | 0, _, s => ([], s)
  | n + 1, i, s =>
    let m := createMeshDescriptor theme pr s i context
    let rest := meshLoop theme pr context n (i + 1) m.2
    (m.1 :: rest.1, rest.2)

/-- The prompt after empty-input substitution: the source keeps the original
(untrimmed) prompt whenever its trimmed form is non-empty, and substitutes
"abstract artifact" otherwise (absent prompt included). -/
def fallbackPrompt (promptIn : Option String) : String :=
  match promptIn with
  | none => "abstract artifact"
  | some pr => if (jsTrim pr).length ≠ 0 then pr else "abstract artifact"

/-- The theme-driven tail of `generateModelSpec` (everything after the
template short-circuit), returning `none` exactly where the source would throw
(the random theme pick coming back `undefined`, possible only on seeds that
make the LCG draw negative). -/
def genericModelSpec (pr : String) (seed : Nat) (hints : PromptHints) :
    Option ProceduralModelSpec :=
  let picked := pickTheme pr seed hints
  match picked.1 with
  | none => none
  | some theme =>
    let pal := resolvePalette theme hints
    let palette := pal.1
    let accentColor := pal.2
    let environment := hints.environmentHint.getD theme.environment
    let meshCount : ℤ × Nat :=
      match hints.meshTarget with
      | some t => (t, picked.2)
      | none =>
        let step := createGenerator picked.2
        (2 + Int.floor (step.1 * 3), step.2)
    let clampedMeshCount := clampI meshCount.1 1 4
    let context : DescriptorContext :=
      { palette, accentColor, primaryGeometry := hints.geometryPreference,
        detailBias := hints.detailBias }
    some { prompt := pr, seed, environment, accentColor,
           meshes := (meshLoop theme pr context clampedMeshCount.toNat 0 meshCount.2).1 }

/-- `generateModelSpec`. -/
def generateModelSpec (promptIn : Option String) : Option ProceduralModelSpec :=
  let pr := fallbackPrompt promptIn
  let seed := createSeed pr
  let hints := analyzePromptHints pr
  match tryTemplateSpec pr hints seed with
  | some templateSpec => some templateSpec
  | none => genericModelSpec pr seed hints

/-- Whether the named-template short-circuit fires for the given input. -/
def templateHit (promptIn : Option String) : Bool :=
  (tryTemplateSpec (fallbackPrompt promptIn) (analyzePromptHints (fallbackPrompt promptIn))
    (createSeed (fallbackPrompt promptIn))).isSome

/-- The mesh list of the generated blueprint (empty for the unreachable
`none` outcome). -/
def blueprintMeshes (promptIn : Option String) : List MeshDescriptor :=
  match generateModelSpec promptIn with
  | some bp => bp.meshes
  | none => []


/-! ## Derived helpers for theorem statements -/

/-- The theme the generic path settles on (first component of `pickTheme`,
recomputed at the same state the generator passes it). -/
def pickedTheme (promptIn : Option String) : Option ThemePreset :=
  (pickTheme (fallbackPrompt promptIn) (createSeed (fallbackPrompt promptIn))
    (analyzePromptHints (fallbackPrompt promptIn))).1

/-- The LCG state after `n` draws from `seed`. -/
def lcgState (seed : Nat) : ℕ → Nat
  | 0 => seed
  | n + 1 => (lcgState seed n * 16807) % 2147483647

/-- The value returned by the `(n+1)`-st `rand()` call of a generator created
from `seed`. -/
def nthDraw (seed : Nat) (n : ℕ) : ℚ :=
  (createGenerator (lcgState seed n)).1


/-- The mesh-count computation of the generic path (hint target, else
2 + floor(rand*3)), together with the RNG state it leaves behind. -/
def genericMeshCount (pr : String) (seed : Nat) (hints : PromptHints) : ℤ × Nat :=
  let s1 := (pickTheme pr seed hints).2
  match hints.meshTarget with
  | some t => (t, s1)
  | none =>
    let step := createGenerator s1
    (2 + Int.floor (step.1 * 3), step.2)

/-- A good LCG state: not a multiple of the modulus (such states never
collapse to 0, so every draw stays in [0,1)). -/
def GoodState (s : Nat) : Prop := s % 2147483647 ≠ 0

/-- The kind-specific parameter ranges of the claim: radii/dimensions within
their declared intervals, sphere segments in [32,48), icosahedron detail in
{0,1}. -/
def geomInRange : GeometrySpec → Prop
  | .sphere r ws hs =>
    1.1 ≤ r ∧ r ≤ 1.8 ∧ 32 ≤ ws ∧ ws < 48 ∧ 32 ≤ hs ∧ hs < 48
  | .box w h d => 1 ≤ w ∧ w ≤ 2.2 ∧ 1 ≤ h ∧ h ≤ 1.6 ∧ 1 ≤ d ∧ d ≤ 2
  | .torus r tu _ _ _ => 1.2 ≤ r ∧ r ≤ 1.9 ∧ 0.2 ≤ tu ∧ tu ≤ 0.5
  | .cylinder _ _ h _ _ _ => 2 ≤ h ∧ h ≤ 3.2
  | .cone _ h _ _ => 1.4 ≤ h ∧ h ≤ 2.4
  | .icosahedron r dt => 1.2 ≤ r ∧ r ≤ 1.7 ∧ (dt = 0 ∨ dt = 1)

/-- Metalness and roughness within [0,1]. -/
def matInRange (m : MaterialSpec) : Prop :=
  0 ≤ m.metalness ∧ m.metalness ≤ 1 ∧ 0 ≤ m.roughness ∧ m.roughness ≤ 1


/-! ## Shared lemmas -/

/-- `generateModelSpec` depends on its input only through the
empty-substituted prompt. -/
theorem generateModelSpec_congr (p q : Option String)
    (h : fallbackPrompt p = fallbackPrompt q) :
    generateModelSpec p = generateModelSpec q := by
  unfold generateModelSpec
  rw [h]

/-! ## C1 — determinism -/

/-- C1: Determinism. For every prompt input (absent input included), two calls
of `generateModelSpec` denote the same value: same blueprint, hence same seed,
environment, accent color, and the same mesh list with every per-mesh field
(geometry, material, transform, modifiers, id, name) equal. The embedding is a
pure function — the source generator has no state outside the per-call RNG
closure — so both calls are literally the same term. -/
theorem c1_determinism (p : Option String) :
    generateModelSpec p = generateModelSpec p ∧
    (generateModelSpec p).map (·.seed) = (generateModelSpec p).map (·.seed) ∧
    (generateModelSpec p).map (·.environment) = (generateModelSpec p).map (·.environment) ∧
    (generateModelSpec p).map (·.accentColor) = (generateModelSpec p).map (·.accentColor) ∧
    (blueprintMeshes p).map (·.geometry) = (blueprintMeshes p).map (·.geometry) ∧
    (blueprintMeshes p).map (·.material) = (blueprintMeshes p).map (·.material) ∧
    (blueprintMeshes p).map (·.transform) = (blueprintMeshes p).map (·.transform) ∧
    (blueprintMeshes p).map (·.modifiers) = (blueprintMeshes p).map (·.modifiers) ∧
    (blueprintMeshes p).map (·.id) = (blueprintMeshes p).map (·.id) ∧
    (blueprintMeshes p).map (·.name) = (blueprintMeshes p).map (·.name) :=
  ⟨rfl, rfl, rfl, rfl, rfl, rfl, rfl, rfl, rfl, rfl⟩

/-! ## C2 — empty-input normalization -/

/-- C2: `generateModelSpec` on absent, empty, and blank input returns the
same blueprint as on "abstract artifact"; the returned prompt field is
"abstract artifact" and the seed is `createSeed "abstract artifact"` in each
of these calls. -/
theorem c2_empty_normalization :
    generateModelSpec none = generateModelSpec (some "abstract artifact") ∧
    generateModelSpec (some "") = generateModelSpec (some "abstract artifact") ∧
    generateModelSpec (some "   ") = generateModelSpec (some "abstract artifact") ∧
    (generateModelSpec none).map (·.prompt) = some "abstract artifact" ∧
    (generateModelSpec (some "")).map (·.prompt) = some "abstract artifact" ∧
    (generateModelSpec (some "   ")).map (·.prompt) = some "abstract artifact" ∧
    (generateModelSpec none).map (·.seed) = some (createSeed "abstract artifact") ∧
    (generateModelSpec (some "")).map (·.seed) = some (createSeed "abstract artifact") ∧
    (generateModelSpec (some "   ")).map (·.seed) = some (createSeed "abstract artifact") :=
  ⟨rfl, rfl, rfl, rfl, rfl, rfl, rfl, rfl, rfl⟩

/-! ## C8 — seed as a function of the prompt -/

/-- C8 counterexample: " cat" and "cat" are equal after trimming (and both
non-empty), yet the two calls return different seeds — the source hashes the
original untrimmed prompt, so the claim as stated is false. -/
theorem c8_cex_trim_changes_seed :
    jsTrim " cat" = jsTrim "cat" ∧
    (jsTrim " cat").length ≠ 0 ∧
    (generateModelSpec (some " cat")).map (·.seed) ≠
      (generateModelSpec (some "cat")).map (·.seed) := by
  refine ⟨by decide, by decide, ?_⟩
  decide

/-- C8 (amended): the seed — and the whole blueprint — is a pure function of
the prompt after empty-substitution only: the source trims solely to detect
blankness and hashes the original string, so any two inputs with the same
`fallbackPrompt` give identical seeds and identical blueprints. -/
theorem c8_seed_function_of_prompt (p q : Option String)
    (h : fallbackPrompt p = fallbackPrompt q) :
    (generateModelSpec p).map (·.seed) = (generateModelSpec q).map (·.seed) ∧
    generateModelSpec p = generateModelSpec q := by
  have hpq := generateModelSpec_congr p q h
  exact ⟨by rw [hpq], hpq⟩

/-- Witness for C8 (amended) at concrete inputs: absent input and the empty
string substitute to the same prompt, and the theorem transports the equality. -/
theorem c8_seed_function_of_prompt_witness :
    fallbackPrompt none = fallbackPrompt (some "") ∧
    ((generateModelSpec none).map (·.seed) = (generateModelSpec (some "")).map (·.seed) ∧
      generateModelSpec none = generateModelSpec (some "")) :=
  ⟨by decide, c8_seed_function_of_prompt none (some "") (by decide)⟩

/-! ## C4 — the RNG contract -/

/-- C4 counterexample: seed 0 is a 32-bit unsigned seed, the state update is
as specified, but the first draw is `(0 − 1)/2147483646 < 0`, outside [0,1):
states that are multiples of 2147483647 collapse to 0 and draw negatively. -/
theorem c4_cex_zero_seed :
    (0 : Nat) < 4294967296 ∧ nthDraw 0 0 < 0 := by
  constructor
  · decide
  · show ((createGenerator (lcgState 0 0)).1 : ℚ) < 0
    norm_num [createGenerator, lcgState]

/-- Multiplying a state that is nonzero mod 2147483647 by 16807 keeps it
nonzero mod 2147483647 (16807 is coprime to the modulus). -/
theorem lcg_step_ne_zero (a : Nat) (h : a % 2147483647 ≠ 0) :
    (a * 16807) % 2147483647 ≠ 0 := by
  intro h0
  have hdvd : 2147483647 ∣ a * 16807 := Nat.dvd_of_mod_eq_zero h0
  have hcop : Nat.Coprime 2147483647 16807 := by decide
  have hdvda : 2147483647 ∣ a := hcop.dvd_of_dvd_mul_right hdvd
  exact h (Nat.mod_eq_zero_of_dvd hdvda)


/-! ## Template-path lemmas -/

/-- The template scan fires exactly when a trigger phrase of the (single-entry)
catalog occurs in the lower-cased prompt. -/
theorem templateHit_iff (p : Option String) :
    templateHit p = true ↔
      includesAny (jsToLower (fallbackPrompt p)) ["cricket bat", "bat"] = true := by
  unfold templateHit tryTemplateSpec SHAPE_TEMPLATES
  cases h : includesAny (jsToLower (fallbackPrompt p)) ["cricket bat", "bat"] <;>
    simp [List.find?, h]

/-- On a template hit, the whole generation call returns the template
blueprint: the generic pipeline contributes nothing. -/
theorem generateModelSpec_template (p : Option String) (h : templateHit p = true) :
    generateModelSpec p =
      tryTemplateSpec (fallbackPrompt p) (analyzePromptHints (fallbackPrompt p))
        (createSeed (fallbackPrompt p)) := by
  unfold templateHit at h
  unfold generateModelSpec
  cases htt : tryTemplateSpec (fallbackPrompt p) (analyzePromptHints (fallbackPrompt p))
      (createSeed (fallbackPrompt p)) with
  | none => rw [htt] at h; simp at h
  | some t => simp [htt]

/-- When the template scan misses, generation is the generic pipeline. -/
theorem generateModelSpec_generic (p : Option String) (h : templateHit p = false) :
    generateModelSpec p =
      genericModelSpec (fallbackPrompt p) (createSeed (fallbackPrompt p))
        (analyzePromptHints (fallbackPrompt p)) := by
  unfold templateHit at h
  unfold generateModelSpec
  cases htt : tryTemplateSpec (fallbackPrompt p) (analyzePromptHints (fallbackPrompt p))
      (createSeed (fallbackPrompt p)) with
  | none => simp [htt]
  | some t => rw [htt] at h; simp at h

/-- The blueprint a template hit produces: the fixed three-part cricket-bat
mesh list (blade, handle, logo panel), with its hand-authored geometry. -/
theorem tryTemplateSpec_meshes (pr : String) (hints : PromptHints) (seed : Nat)
    (h : (tryTemplateSpec pr hints seed).isSome = true) :
    ∃ bp, tryTemplateSpec pr hints seed = some bp ∧
      bp.meshes.map (·.name) = ["Cricket-Blade", "Cricket-Handle", "Bat-Logo-Panel"] ∧
      bp.meshes.map (·.geometry) =
        [.box 0.45 2.2 0.32, .cylinder 0.12 0.15 1.5 48 1 false, .box 0.4 0.9 0.05] ∧
      bp.meshes.length = 3 := by
  unfold tryTemplateSpec SHAPE_TEMPLATES at h ⊢
  cases hf : includesAny (jsToLower pr) ["cricket bat", "bat"] with
  | false => simp [List.find?, hf] at h
  | true =>
    simp only [List.find?, hf]
    exact ⟨_, rfl, rfl, rfl, rfl⟩


/-! ## Generic-path lemmas -/

/-- Unfolding of the generic pipeline into its stages. -/
theorem genericModelSpec_eq (pr : String) (seed : Nat) (hints : PromptHints) :
    genericModelSpec pr seed hints =
      match (pickTheme pr seed hints).1 with
      | none => none
      | some theme =>
        some { prompt := pr, seed := seed,
               environment := hints.environmentHint.getD theme.environment,
               accentColor := (resolvePalette theme hints).2,
               meshes := (meshLoop theme pr
                 { palette := (resolvePalette theme hints).1,
                   accentColor := (resolvePalette theme hints).2,
                   primaryGeometry := hints.geometryPreference,
                   detailBias := hints.detailBias }
                 (clampI (genericMeshCount pr seed hints).1 1 4).toNat 0
                 (genericMeshCount pr seed hints).2).1 } := rfl

/-- The mesh loop produces exactly as many meshes as requested. -/
theorem meshLoop_length (theme : ThemePreset) (pr : String) (ctx : DescriptorContext) :
    ∀ n i s, ((meshLoop theme pr ctx n i s).1).length = n := by
  intro n
  induction n with
  | zero => intro i s; rfl
  | succ k ih =>
    intro i s
    have hstep : (meshLoop theme pr ctx (k + 1) i s).1 =
        (createMeshDescriptor theme pr s i ctx).1 ::
          (meshLoop theme pr ctx k (i + 1) (createMeshDescriptor theme pr s i ctx).2).1 := rfl
    rw [hstep, List.length_cons, ih]

/-- The first mesh the loop builds is the index-0 descriptor. -/
theorem meshLoop_head (theme : ThemePreset) (pr : String) (ctx : DescriptorContext)
    (n i : ℕ) (s : Nat) :
    (meshLoop theme pr ctx (n + 1) i s).1.head? =
      some (createMeshDescriptor theme pr s i ctx).1 := rfl

/-- The index-0 descriptor always carries the identity transform. -/
theorem createMeshDescriptor_transform0 (theme : ThemePreset) (pr : String) (s : Nat)
    (ctx : DescriptorContext) :
    ((createMeshDescriptor theme pr s 0 ctx).1).transform =
      { position := ⟨0, 0, 0⟩, rotation := ⟨0, 0, 0⟩, scale := ⟨1, 1, 1⟩ } := rfl

/-- The extracted mesh-count target is 1 (single-object cue), 4 (multi-object
cue), or absent. -/
theorem meshTarget_cases (pr : String) :
    (analyzePromptHints pr).meshTarget = none ∨
    (analyzePromptHints pr).meshTarget = some 1 ∨
    (analyzePromptHints pr).meshTarget = some 4 := by
  unfold analyzePromptHints
  dsimp only
  split
  · exact Or.inr (Or.inl rfl)
  · split
    · exact Or.inr (Or.inr rfl)
    · exact Or.inl rfl

/-! ## C5 — named-template trigger and bypass -/

/-- C5: the template path fires exactly when a catalog trigger phrase occurs
in the lower-cased prompt; when it fires, the blueprint is exactly the
template's output — the generic theme pipeline produces nothing — and its mesh
list is the fixed cricket-bat trio (blade, handle, logo panel) with the
hand-authored geometry. -/
theorem c5_template_trigger (p : Option String) :
    (templateHit p = true ↔
      includesAny (jsToLower (fallbackPrompt p)) ["cricket bat", "bat"] = true) ∧
    (templateHit p = true →
      generateModelSpec p =
        tryTemplateSpec (fallbackPrompt p) (analyzePromptHints (fallbackPrompt p))
          (createSeed (fallbackPrompt p)) ∧
      (blueprintMeshes p).length = 3 ∧
      (blueprintMeshes p).map (·.name) =
        ["Cricket-Blade", "Cricket-Handle", "Bat-Logo-Panel"] ∧
      (blueprintMeshes p).map (·.geometry) =
        [.box 0.45 2.2 0.32, .cylinder 0.12 0.15 1.5 48 1 false, .box 0.4 0.9 0.05]) := by
  refine ⟨templateHit_iff p, fun h => ?_⟩
  have hg := generateModelSpec_template p h
  unfold templateHit at h
  obtain ⟨bp, hbp, hnames, hgeo, hlen⟩ := tryTemplateSpec_meshes _ _ _ h
  have hbm : blueprintMeshes p = bp.meshes := by
    unfold blueprintMeshes
    rw [hg, hbp]
  rw [hg, hbp, hbm]
  exact ⟨rfl, hlen, hnames, hgeo⟩

/-- Witness for C5 at the prompt "cricket bat". -/
theorem c5_template_trigger_witness :
    templateHit (some "cricket bat") = true ∧
    (generateModelSpec (some "cricket bat") =
        tryTemplateSpec (fallbackPrompt (some "cricket bat"))
          (analyzePromptHints (fallbackPrompt (some "cricket bat")))
          (createSeed (fallbackPrompt (some "cricket bat"))) ∧
      (blueprintMeshes (some "cricket bat")).length = 3 ∧
      (blueprintMeshes (some "cricket bat")).map (·.name) =
        ["Cricket-Blade", "Cricket-Handle", "Bat-Logo-Panel"] ∧
      (blueprintMeshes (some "cricket bat")).map (·.geometry) =
        [.box 0.45 2.2 0.32, .cylinder 0.12 0.15 1.5 48 1 false, .box 0.4 0.9 0.05]) :=
  ⟨by decide, (c5_template_trigger (some "cricket bat")).2 (by decide)⟩

/-! ## C6 — primary transform identity -/

/-- C6: whenever the named-template path is not taken (and generation
succeeds), the first mesh of the blueprint has the identity transform:
position [0,0,0], rotation [0,0,0], scale [1,1,1]. -/
theorem c6_primary_transform_identity (p : Option String)
    (hT : templateHit p = false) (hS : (generateModelSpec p).isSome = true) :
    ((generateModelSpec p).bind (fun bp => bp.meshes.head?)).map (·.transform) =
      some { position := ⟨0, 0, 0⟩, rotation := ⟨0, 0, 0⟩, scale := ⟨1, 1, 1⟩ } := by
  rw [generateModelSpec_generic p hT] at hS ⊢
  rw [genericModelSpec_eq] at hS ⊢
  cases hth : (pickTheme (fallbackPrompt p) (createSeed (fallbackPrompt p))
      (analyzePromptHints (fallbackPrompt p))).1 with
  | none => rw [hth] at hS; simp at hS
  | some theme =>
    dsimp only at hS ⊢
    have hk1 : 1 ≤ (clampI (genericMeshCount (fallbackPrompt p) (createSeed (fallbackPrompt p))
        (analyzePromptHints (fallbackPrompt p))).1 1 4).toNat := by
      unfold clampI
      omega
    obtain ⟨n, hn⟩ := Nat.exists_eq_add_of_le hk1
    rw [hn, Nat.add_comm]
    simp only [Option.some_bind, meshLoop_head, Option.map_some',
      createMeshDescriptor_transform0]

/-- Witness for C6 at the prompt "robot in space". -/
theorem c6_primary_transform_identity_witness :
    templateHit (some "robot in space") = false ∧
    (generateModelSpec (some "robot in space")).isSome = true ∧
    ((generateModelSpec (some "robot in space")).bind (fun bp => bp.meshes.head?)).map
        (·.transform) =
      some { position := ⟨0, 0, 0⟩, rotation := ⟨0, 0, 0⟩, scale := ⟨1, 1, 1⟩ } :=
  ⟨by decide, by decide,
    c6_primary_transform_identity (some "robot in space") (by decide) (by decide)⟩


/-! ## C3 — mesh count bounds -/

/-- C3: every produced blueprint has between 1 and 4 meshes (template path
included); on the generic path the count equals the clamp to [1,4] of the
hint target when present, else of 2 + floor(rand*3), and an extracted hint
target is always 1 or 4. -/
theorem c3_mesh_count_bounds (p : Option String)
    (hS : (generateModelSpec p).isSome = true) :
    (1 ≤ (blueprintMeshes p).length ∧ (blueprintMeshes p).length ≤ 4) ∧
    (templateHit p = false →
      ((blueprintMeshes p).length : ℤ) =
        clampI (genericMeshCount (fallbackPrompt p) (createSeed (fallbackPrompt p))
          (analyzePromptHints (fallbackPrompt p))).1 1 4 ∧
      (∀ t : ℤ, (analyzePromptHints (fallbackPrompt p)).meshTarget = some t →
        t = 1 ∨ t = 4)) := by
  cases hT : templateHit p with
  | true =>
    have hg := generateModelSpec_template p hT
    unfold templateHit at hT
    obtain ⟨bp, hbp, _, _, hlen⟩ := tryTemplateSpec_meshes _ _ _ hT
    have hbm : blueprintMeshes p = bp.meshes := by
      unfold blueprintMeshes
      rw [hg, hbp]
    refine ⟨?_, fun hf => by simp at hf⟩
    rw [hbm, hlen]
    omega
  | false =>
    have hgen := generateModelSpec_generic p hT
    rw [hgen, genericModelSpec_eq] at hS
    cases hth : (pickTheme (fallbackPrompt p) (createSeed (fallbackPrompt p))
        (analyzePromptHints (fallbackPrompt p))).1 with
    | none => rw [hth] at hS; simp at hS
    | some theme =>
      have hbm : (blueprintMeshes p).length =
          (clampI (genericMeshCount (fallbackPrompt p) (createSeed (fallbackPrompt p))
            (analyzePromptHints (fallbackPrompt p))).1 1 4).toNat := by
        unfold blueprintMeshes
        rw [hgen, genericModelSpec_eq, hth]
        exact meshLoop_length _ _ _ _ _ _
      have hcl : 1 ≤ clampI (genericMeshCount (fallbackPrompt p) (createSeed (fallbackPrompt p))
            (analyzePromptHints (fallbackPrompt p))).1 1 4 ∧
          clampI (genericMeshCount (fallbackPrompt p) (createSeed (fallbackPrompt p))
            (analyzePromptHints (fallbackPrompt p))).1 1 4 ≤ 4 := by
        unfold clampI
        omega
      refine ⟨by omega, fun _ => ⟨by omega, fun t ht => ?_⟩⟩
      rcases meshTarget_cases (fallbackPrompt p) with hc | hc | hc <;> rw [hc] at ht
      · exact absurd ht (by simp)
      · exact Or.inl (by injection ht with h; omega)
      · exact Or.inr (by injection ht with h; omega)

/-- Witness for C3 at the prompt "robot in space". -/
theorem c3_mesh_count_bounds_witness :
    (generateModelSpec (some "robot in space")).isSome = true ∧
    ((1 ≤ (blueprintMeshes (some "robot in space")).length ∧
        (blueprintMeshes (some "robot in space")).length ≤ 4) ∧
      (templateHit (some "robot in space") = false →
        ((blueprintMeshes (some "robot in space")).length : ℤ) =
          clampI (genericMeshCount (fallbackPrompt (some "robot in space"))
            (createSeed (fallbackPrompt (some "robot in space")))
            (analyzePromptHints (fallbackPrompt (some "robot in space")))).1 1 4 ∧
        (∀ t : ℤ,
          (analyzePromptHints (fallbackPrompt (some "robot in space"))).meshTarget = some t →
          t = 1 ∨ t = 4))) :=
  ⟨by decide, c3_mesh_count_bounds (some "robot in space") (by decide)⟩


/-! ## C10 — environment hint overrides the theme -/

/-- C10: on the generic path, the blueprint environment is the first-matching
environment keyword hint (tables scanned in declaration order
studio/city/sunset/nebula) when one matches, and the picked theme preset's
environment otherwise. -/
theorem c10_environment_hint (p : Option String)
    (hT : templateHit p = false) (hS : (generateModelSpec p).isSome = true) :
    ((analyzePromptHints (fallbackPrompt p)).environmentHint =
      (ENVIRONMENT_KEYWORDS.find? (fun kv =>
        includesAny (jsToLower (fallbackPrompt p)) kv.2)).map (·.1)) ∧
    (∀ e, (analyzePromptHints (fallbackPrompt p)).environmentHint = some e →
      (generateModelSpec p).map (·.environment) = some e) ∧
    ((analyzePromptHints (fallbackPrompt p)).environmentHint = none →
      ∃ theme, pickedTheme p = some theme ∧
        (generateModelSpec p).map (·.environment) = some theme.environment) := by
  rw [generateModelSpec_generic p hT] at hS ⊢
  rw [genericModelSpec_eq] at hS ⊢
  cases hth : (pickTheme (fallbackPrompt p) (createSeed (fallbackPrompt p))
      (analyzePromptHints (fallbackPrompt p))).1 with
  | none => rw [hth] at hS; simp at hS
  | some theme =>
    refine ⟨rfl, ?_, ?_⟩
    · intro e he
      dsimp only
      rw [he]
      rfl
    · intro he
      refine ⟨theme, hth, ?_⟩
      dsimp only
      rw [he]
      rfl

/-- Witness for C10 at "robot in space": the "space" cue forces the nebula
environment even though the keyword-selected mechanical theme carries city. -/
theorem c10_environment_hint_witness :
    templateHit (some "robot in space") = false ∧
    (generateModelSpec (some "robot in space")).isSome = true ∧
    (analyzePromptHints (fallbackPrompt (some "robot in space"))).environmentHint =
      some EnvTag.nebula ∧
    (pickedTheme (some "robot in space")).map (·.environment) = some EnvTag.city ∧
    (generateModelSpec (some "robot in space")).map (·.environment) = some EnvTag.nebula :=
  ⟨by decide, by decide, by decide, by decide,
    (c10_environment_hint (some "robot in space") (by decide) (by decide)).2.1
      EnvTag.nebula (by decide)⟩

/-! ## C9 — geometry-kind pools are never empty -/

/-- C9: for every cataloged theme and any hint context, both candidate pools
of the geometry-kind selection are non-empty (the primary pool always contains
the theme primary, the secondary pool the theme's three secondaries), and
under a draw in [0,1) the selection returns an element of the pool with one
draw consumed — the empty-pool fallback draw is unreachable. -/
theorem c9_geometry_pool_total (theme : ThemePreset) (hmem : theme ∈ THEME_PRESETS)
    (gPref : Option GeometryKind) (index : ℕ) (s : Nat)
    (hd : 0 ≤ (createGenerator s).1 ∧ (createGenerator s).1 < 1) :
    0 < (primaryCandidates gPref theme).length ∧
    0 < (secondaryCandidates gPref theme).length ∧
    0 < theme.secondaryGeometries.length ∧
    ∃ g, selectGeometryKind
        (if index = 0 then primaryCandidates gPref theme else secondaryCandidates gPref theme)
        theme.secondaryGeometries s = (some g, (createGenerator s).2) := by
  have hsec : theme.secondaryGeometries.length = 3 := by
    simp only [THEME_PRESETS, List.mem_cons, List.not_mem_nil, or_false] at hmem
    rcases hmem with rfl | rfl | rfl | rfl <;> rfl
  have hprim : (primaryCandidates gPref theme).length = 2 := rfl
  have hsecc : 0 < (secondaryCandidates gPref theme).length := by
    unfold secondaryCandidates
    cases gPref <;> simp [hsec]
  refine ⟨by omega, hsecc, by omega, ?_⟩
  set pool := if index = 0 then primaryCandidates gPref theme
    else secondaryCandidates gPref theme with hpool
  have hpoolpos : 0 < pool.length := by
    rw [hpool]
    split
    · omega
    · exact hsecc
  rcases hcg : createGenerator s with ⟨dv, sv⟩
  rw [hcg] at hd
  dsimp only at hd
  have hfl0 : 0 ≤ Int.floor (dv * (pool.length : ℚ)) := by
    apply Int.floor_nonneg.2
    exact mul_nonneg hd.1 (by positivity)
  have hfllt : Int.floor (dv * (pool.length : ℚ)) < (pool.length : ℤ) := by
    apply Int.floor_lt.2
    push_cast
    calc dv * (pool.length : ℚ) < 1 * (pool.length : ℚ) := by
          apply mul_lt_mul_of_pos_right hd.2
          exact_mod_cast hpoolpos
      _ = (pool.length : ℚ) := one_mul _
  have htn : (Int.floor (dv * (pool.length : ℚ))).toNat < pool.length := by omega
  obtain ⟨g, hg⟩ : ∃ g, pool.get? (Int.floor (dv * (pool.length : ℚ))).toNat = some g := by
    cases hgg : pool.get? (Int.floor (dv * (pool.length : ℚ))).toNat with
    | none =>
      have := List.get?_eq_none.1 hgg
      omega
    | some g => exact ⟨g, rfl⟩
  refine ⟨g, ?_⟩
  unfold selectGeometryKind jsIndex
  rw [hcg]
  dsimp only
  rw [if_pos hfl0, hg]

/-- Witness for C9: the first cataloged theme, no geometry hint, the primary
mesh slot, and the concrete state 1 (whose draw 16806/2147483646 lies in
[0,1)). -/
theorem c9_geometry_pool_total_witness :
    (THEME_PRESETS.head (by decide) ∈ THEME_PRESETS ∧
      0 ≤ (createGenerator 1).1 ∧ (createGenerator 1).1 < 1) ∧
    (0 < (primaryCandidates none (THEME_PRESETS.head (by decide))).length ∧
      0 < (secondaryCandidates none (THEME_PRESETS.head (by decide))).length ∧
      0 < (THEME_PRESETS.head (by decide)).secondaryGeometries.length ∧
      ∃ g, selectGeometryKind
          (if 0 = 0 then primaryCandidates none (THEME_PRESETS.head (by decide))
            else secondaryCandidates none (THEME_PRESETS.head (by decide)))
          (THEME_PRESETS.head (by decide)).secondaryGeometries 1 =
        (some g, (createGenerator 1).2)) :=
  ⟨⟨by decide, by decide, by decide⟩,
    c9_geometry_pool_total (THEME_PRESETS.head (by decide)) (by decide) none 0 1
      ⟨by decide, by decide⟩⟩


/-- One generator step from a good state: the new state is good and the draw
lies in [0,1). -/
theorem createGenerator_good (s : Nat) (h : GoodState s) :
    GoodState (createGenerator s).2 ∧
    0 ≤ (createGenerator s).1 ∧ (createGenerator s).1 < 1 := by
  have hne : (s * 16807) % 2147483647 ≠ 0 := lcg_step_ne_zero s h
  have hlt : (s * 16807) % 2147483647 < 2147483647 := Nat.mod_lt _ (by norm_num)
  have h1 : 1 ≤ (s * 16807) % 2147483647 := Nat.one_le_iff_ne_zero.2 hne
  refine ⟨?_, ?_, ?_⟩
  · show (s * 16807) % 2147483647 % 2147483647 ≠ 0
    rw [Nat.mod_mod]
    exact hne
  · show (0 : ℚ) ≤ (((s * 16807) % 2147483647 : Nat) - 1) / 2147483646
    apply div_nonneg _ (by norm_num)
    have : (1 : ℚ) ≤ ((s * 16807) % 2147483647 : Nat) := by exact_mod_cast h1
    linarith
  · show ((((s * 16807) % 2147483647 : Nat) : ℚ) - 1) / 2147483646 < 1
    rw [div_lt_one (by norm_num)]
    have : (((s * 16807) % 2147483647 : Nat) : ℚ) < 2147483647 := by exact_mod_cast hlt
    linarith

/-- C4 (amended): for every 32-bit unsigned seed that is not a multiple of
2147483647, the generator state evolves as state = (state * 16807) mod
2147483647, each draw returns (state − 1)/2147483646 for the updated state,
and every draw lies in [0,1). (Seeds 0, 2147483647 and 4294967294 collapse
the state to 0 and draw the negative value −1/2147483646 instead — see the
counterexample.) -/
theorem c4_lcg_contract (seed : Nat) (_h32 : seed < 4294967296)
    (hnz : seed % 2147483647 ≠ 0) (n : ℕ) :
    lcgState seed (n + 1) = (lcgState seed n * 16807) % 2147483647 ∧
    nthDraw seed n = ((lcgState seed (n + 1) : ℚ) - 1) / 2147483646 ∧
    0 ≤ nthDraw seed n ∧ nthDraw seed n < 1 := by
  have hgood : ∀ m, GoodState (lcgState seed m) := by
    intro m
    induction m with
    | zero => exact hnz
    | succ k ih =>
      show ((lcgState seed k * 16807) % 2147483647) % 2147483647 ≠ 0
      rw [Nat.mod_mod]
      exact lcg_step_ne_zero _ ih
  obtain ⟨-, hd0, hd1⟩ := createGenerator_good (lcgState seed n) (hgood n)
  exact ⟨rfl, rfl, hd0, hd1⟩

/-- Witness for C4 (amended) at seed 1 and the first draw. -/
theorem c4_lcg_contract_witness :
    ((1 : Nat) < 4294967296 ∧ (1 : Nat) % 2147483647 ≠ 0) ∧
    (lcgState 1 1 = (lcgState 1 0 * 16807) % 2147483647 ∧
      nthDraw 1 0 = ((lcgState 1 1 : ℚ) - 1) / 2147483646 ∧
      0 ≤ nthDraw 1 0 ∧ nthDraw 1 0 < 1) :=
  ⟨⟨by decide, by decide⟩, c4_lcg_contract 1 (by decide) (by decide) 0⟩


/-! ## Range-containment machinery (C7) -/

/-- Clamping into [0,1] lands in [0,1], whatever the input. -/
theorem clamp01 (x : ℚ) : 0 ≤ clamp x 0 1 ∧ clamp x 0 1 ≤ 1 := by
  unfold clamp
  exact ⟨le_min (by norm_num) (le_max_left 0 x), min_le_left _ _⟩

/-- Floor of a draw in [0,1) scaled by a positive count is a valid index. -/
theorem floor_mul_nat_bounds (d : ℚ) (n : ℕ) (hn : 0 < n) (hd0 : 0 ≤ d) (hd1 : d < 1) :
    0 ≤ Int.floor (d * (n : ℚ)) ∧ Int.floor (d * (n : ℚ)) < (n : ℤ) := by
  constructor
  · exact Int.floor_nonneg.2 (mul_nonneg hd0 (by positivity))
  · apply Int.floor_lt.2
    push_cast
    have hq : (0 : ℚ) < n := by exact_mod_cast hn
    have := mul_lt_mul_of_pos_right hd1 hq
    linarith

/-- A ranged draw from a good state lies in [lo, hi) and leaves a good state. -/
theorem randomRange_bounds (lo hi : ℚ) (s : Nat) (hlh : lo < hi) (h : GoodState s) :
    lo ≤ (randomRange lo hi s).1 ∧ (randomRange lo hi s).1 < hi ∧
      GoodState (randomRange lo hi s).2 := by
  obtain ⟨hg, hd0, hd1⟩ := createGenerator_good s h
  have e1 : (randomRange lo hi s).1 = lo + (hi - lo) * (createGenerator s).1 := rfl
  refine ⟨?_, ?_, hg⟩
  · rw [e1]
    have := mul_nonneg (sub_nonneg.2 (le_of_lt hlh)) hd0
    linarith
  · rw [e1]
    have := mul_lt_mul_of_pos_left hd1 (sub_pos.2 hlh)
    linarith

/-- A ranged draw preserves state goodness. -/
theorem randomRange_good (lo hi : ℚ) (s : Nat) (h : GoodState s) :
    GoodState (randomRange lo hi s).2 :=
  (createGenerator_good s h).1

/-- The geometry-kind selection preserves state goodness (whether or not the
lazy fallback draw fires). -/
theorem selectGeometryKind_good (pool fb : List GeometryKind) (s : Nat) (h : GoodState s) :
    GoodState (selectGeometryKind pool fb s).2 := by
  unfold selectGeometryKind
  dsimp only
  cases jsIndex pool (Int.floor ((createGenerator s).1 * (pool.length : ℚ))) with
  | some g => exact (createGenerator_good s h).1
  | none => exact (createGenerator_good _ (createGenerator_good s h).1).1

/-- The mesh-name draw preserves state goodness. -/
theorem createMeshName_good (pr : String) (g : Option GeometryKind) (s : Nat) (index : ℕ)
    (h : GoodState s) : GoodState (createMeshName pr g s index).2 :=
  (createGenerator_good s h).1

/-- Either branch of a pair-valued conditional has a good state component if
both branches do. -/
theorem goodState_ifPair {β : Type} (c : Prop) [Decidable c] (x y : β × Nat)
    (hx : GoodState x.2) (hy : GoodState y.2) : GoodState ((if c then x else y).2) := by
  split
  · exact hx
  · exact hy

/-- The transform draws preserve state goodness. -/
theorem createTransform_good (s : Nat) (index : ℕ) (h : GoodState s) :
    GoodState (createTransform s index).2 := by
  unfold createTransform
  split
  · exact h
  · have h1 := (createGenerator_good _ h).1
    have h2 := (createGenerator_good _ h1).1
    have h3 := (createGenerator_good _ h2).1
    have h4 := (createGenerator_good _ h3).1
    have h5 := (createGenerator_good _ h4).1
    have h6 := (createGenerator_good _ h5).1
    have h7 := (createGenerator_good _ h6).1
    have h8 := (createGenerator_good _ h7).1
    exact (createGenerator_good _ h8).1

/-- From a good state, every geometry kind generates parameters inside the
claimed ranges, and leaves a good state. -/
theorem createGeometry_inRange (kind : Option GeometryKind) (s : Nat) (h : GoodState s) :
    geomInRange (createGeometry kind s).1 ∧ GoodState (createGeometry kind s).2 := by
  have icoCase : geomInRange (createGeometry none s).1 ∧ GoodState (createGeometry none s).2 := by
    obtain ⟨hr0, hr1, hg1⟩ := randomRange_bounds 1.2 1.7 s (by norm_num) h
    obtain ⟨hg2, hd0, hd1⟩ := createGenerator_good _ hg1
    have hdet := floor_mul_nat_bounds ((createGenerator (randomRange 1.2 1.7 s).2).1) 2
      (by norm_num) hd0 hd1
    push_cast at hdet
    refine ⟨?_, hg2⟩
    show (1.2 : ℚ) ≤ (randomRange 1.2 1.7 s).1 ∧ (randomRange 1.2 1.7 s).1 ≤ 1.7 ∧ _
    exact ⟨hr0, le_of_lt hr1, by omega⟩
  cases kind with
  | none => exact icoCase
  | some k =>
    cases k with
    | sphere =>
      obtain ⟨hr0, hr1, hg1⟩ := randomRange_bounds 1.1 1.8 s (by norm_num) h
      obtain ⟨hg2, hw0, hw1⟩ := createGenerator_good _ hg1
      obtain ⟨hg3, hh0, hh1⟩ := createGenerator_good _ hg2
      have hws := floor_mul_nat_bounds ((createGenerator (randomRange 1.1 1.8 s).2).1) 16
        (by norm_num) hw0 hw1
      have hhs := floor_mul_nat_bounds
        ((createGenerator (createGenerator (randomRange 1.1 1.8 s).2).2).1) 16
        (by norm_num) hh0 hh1
      push_cast at hws hhs
      refine ⟨?_, hg3⟩
      exact ⟨hr0, le_of_lt hr1, by omega, by omega, by omega, by omega⟩
    | box =>
      obtain ⟨hw0, hw1, hg1⟩ := randomRange_bounds 1 2.2 s (by norm_num) h
      obtain ⟨hh0, hh1, hg2⟩ := randomRange_bounds 1 1.6 _ (by norm_num) hg1
      obtain ⟨hd0, hd1, hg3⟩ := randomRange_bounds 1 2 _ (by norm_num) hg2
      exact ⟨⟨hw0, le_of_lt hw1, hh0, le_of_lt hh1, hd0, le_of_lt hd1⟩, hg3⟩
    | torus =>
      obtain ⟨hr0, hr1, hg1⟩ := randomRange_bounds 1.2 1.9 s (by norm_num) h
      obtain ⟨ht0, ht1, hg2⟩ := randomRange_bounds 0.2 0.5 _ (by norm_num) hg1
      have hg3 := (createGenerator_good _ hg2).1
      have hg4 := (createGenerator_good _ hg3).1
      exact ⟨⟨hr0, le_of_lt hr1, ht0, le_of_lt ht1⟩, hg4⟩
    | cylinder =>
      obtain ⟨_, _, hg1⟩ := randomRange_bounds 0.5 1.2 s (by norm_num) h
      obtain ⟨_, _, hg2⟩ := randomRange_bounds 0.8 1.5 _ (by norm_num) hg1
      obtain ⟨hh0, hh1, hg3⟩ := randomRange_bounds 2 3.2 _ (by norm_num) hg2
      have hg4 := (createGenerator_good _ hg3).1
      have hg5 := (createGenerator_good _ hg4).1
      exact ⟨⟨hh0, le_of_lt hh1⟩, hg5⟩
    | cone =>
      obtain ⟨_, _, hg1⟩ := randomRange_bounds 0.7 1.4 s (by norm_num) h
      obtain ⟨hh0, hh1, hg2⟩ := randomRange_bounds 1.4 2.4 _ (by norm_num) hg1
      have hg3 := (createGenerator_good _ hg2).1
      have hg4 := (createGenerator_good _ hg3).1
      exact ⟨⟨hh0, le_of_lt hh1⟩, hg4⟩
    | icosahedron => exact icoCase


/-- The geometry of a composed mesh is exactly what `createGeometry` produces
from the selected kind and the state after selection. -/
theorem createMeshDescriptor_geometry (theme : ThemePreset) (pr : String) (s : Nat)
    (index : ℕ) (context : DescriptorContext) :
    ((createMeshDescriptor theme pr s index context).1).geometry =
      (createGeometry
        (selectGeometryKind
          (if index = 0 then primaryCandidates context.primaryGeometry theme
           else secondaryCandidates context.primaryGeometry theme)
          theme.secondaryGeometries s).1
        (selectGeometryKind
          (if index = 0 then primaryCandidates context.primaryGeometry theme
           else secondaryCandidates context.primaryGeometry theme)
          theme.secondaryGeometries s).2).1 := rfl

/-- A composed mesh's metalness is the clamped theme base plus detail bias. -/
theorem createMeshDescriptor_metalness (theme : ThemePreset) (pr : String) (s : Nat)
    (index : ℕ) (context : DescriptorContext) :
    ((createMeshDescriptor theme pr s index context).1).material.metalness =
      clamp (theme.baseMetalness +
        (match context.detailBias with
         | DetailBias.organic => -0.2
         | DetailBias.mechanical => 0.15
         | DetailBias.neutral => 0)) 0 1 := rfl

/-- A composed mesh's roughness is the clamped theme base plus detail bias. -/
theorem createMeshDescriptor_roughness (theme : ThemePreset) (pr : String) (s : Nat)
    (index : ℕ) (context : DescriptorContext) :
    ((createMeshDescriptor theme pr s index context).1).material.roughness =
      clamp (theme.baseRoughness +
        (match context.detailBias with
         | DetailBias.organic => 0.2
         | DetailBias.mechanical => -0.1
         | DetailBias.neutral => 0)) 0 1 := rfl

/-- Every composed mesh has metalness and roughness in [0,1] — the clamp is
total, so no state assumption is needed. -/
theorem createMeshDescriptor_material (theme : ThemePreset) (pr : String) (s : Nat)
    (index : ℕ) (context : DescriptorContext) :
    matInRange ((createMeshDescriptor theme pr s index context).1).material := by
  unfold matInRange
  rw [createMeshDescriptor_metalness, createMeshDescriptor_roughness]
  exact ⟨(clamp01 _).1, (clamp01 _).2, (clamp01 _).1, (clamp01 _).2⟩

/-- Composing one mesh from a good state leaves a good state, through every
optional draw. -/
theorem createMeshDescriptor_good (theme : ThemePreset) (pr : String) (s : Nat)
    (index : ℕ) (context : DescriptorContext) (h : GoodState s) :
    GoodState (createMeshDescriptor theme pr s index context).2 := by
  unfold createMeshDescriptor
  dsimp only
  by_cases hc1 : index = 0 ∨
      (if context.palette.isEmpty then theme.palette else context.palette).length = 1 <;>
    by_cases hc2 : 0 < index <;>
    [rw [if_pos hc1, if_pos hc2]; rw [if_pos hc1, if_neg hc2];
     rw [if_neg hc1, if_pos hc2]; rw [if_neg hc1, if_neg hc2]] <;>
    dsimp only
  · exact createMeshName_good pr _ _ index ((createGenerator_good _ ((createGenerator_good _
      (randomRange_good _ _ _ (randomRange_good _ _ _ (randomRange_good _ _ _
      ((createGenerator_good _ (randomRange_good _ _ _ (randomRange_good _ _ _
      (createTransform_good _ _ ((createGeometry_inRange _ _
      (selectGeometryKind_good _ _ _ h)).2))))).1))))).1)).1)
  · exact createMeshName_good pr _ _ index ((createGenerator_good _
      (randomRange_good _ _ _ (randomRange_good _ _ _ (randomRange_good _ _ _
      ((createGenerator_good _ (randomRange_good _ _ _ (randomRange_good _ _ _
      (createTransform_good _ _ ((createGeometry_inRange _ _
      (selectGeometryKind_good _ _ _ h)).2))))).1))))).1)
  · exact createMeshName_good pr _ _ index ((createGenerator_good _ ((createGenerator_good _
      (randomRange_good _ _ _ (randomRange_good _ _ _ (randomRange_good _ _ _
      ((createGenerator_good _ (randomRange_good _ _ _ (randomRange_good _ _ _
      ((createGenerator_good _ (createTransform_good _ _ ((createGeometry_inRange _ _
      (selectGeometryKind_good _ _ _ h)).2))).1)))).1))))).1)).1)
  · exact createMeshName_good pr _ _ index ((createGenerator_good _
      (randomRange_good _ _ _ (randomRange_good _ _ _ (randomRange_good _ _ _
      ((createGenerator_good _ (randomRange_good _ _ _ (randomRange_good _ _ _
      ((createGenerator_good _ (createTransform_good _ _ ((createGeometry_inRange _ _
      (selectGeometryKind_good _ _ _ h)).2))).1)))).1))))).1)

/-- Every mesh the loop builds has metalness and roughness in [0,1]. -/
theorem meshLoop_material (theme : ThemePreset) (pr : String) (ctx : DescriptorContext) :
    ∀ n i s, ∀ m ∈ (meshLoop theme pr ctx n i s).1, matInRange m.material := by
  intro n
  induction n with
  | zero => intro i s m hm; exact absurd hm (List.not_mem_nil m)
  | succ k ih =>
    intro i s m hm
    have hstep : (meshLoop theme pr ctx (k + 1) i s).1 =
        (createMeshDescriptor theme pr s i ctx).1 ::
          (meshLoop theme pr ctx k (i + 1) (createMeshDescriptor theme pr s i ctx).2).1 := rfl
    rw [hstep] at hm
    rcases List.mem_cons.1 hm with rfl | hmem
    · exact createMeshDescriptor_material theme pr s i ctx
    · exact ih (i + 1) _ m hmem

/-- From a good state, every mesh the loop builds has its geometry parameters
inside the claimed ranges. -/
theorem meshLoop_geometry (theme : ThemePreset) (pr : String) (ctx : DescriptorContext) :
    ∀ n i s, GoodState s → ∀ m ∈ (meshLoop theme pr ctx n i s).1, geomInRange m.geometry := by
  intro n
  induction n with
  | zero => intro i s _ m hm; exact absurd hm (List.not_mem_nil m)
  | succ k ih =>
    intro i s h m hm
    have hstep : (meshLoop theme pr ctx (k + 1) i s).1 =
        (createMeshDescriptor theme pr s i ctx).1 ::
          (meshLoop theme pr ctx k (i + 1) (createMeshDescriptor theme pr s i ctx).2).1 := rfl
    rw [hstep] at hm
    rcases List.mem_cons.1 hm with rfl | hmem
    · rw [createMeshDescriptor_geometry]
      exact (createGeometry_inRange _ _ (selectGeometryKind_good _ _ _ h)).1
    · exact ih (i + 1) _ (createMeshDescriptor_good theme pr s i ctx h) m hmem

/-- Theme picking preserves state goodness. -/
theorem pickTheme_good (pr : String) (s : Nat) (hints : PromptHints) (h : GoodState s) :
    GoodState (pickTheme pr s hints).2 := by
  unfold pickTheme
  dsimp only
  cases hints.preferredThemeId with
  | some tid =>
    dsimp only
    cases THEME_PRESETS.find? (fun pre => pre.id == tid) with
    | some explicit => exact h
    | none =>
      dsimp only
      cases THEME_PRESETS.find?
          (fun pre => pre.keywords.any (fun k => jsIncludes (jsToLower pr) k)) with
      | some matched => exact h
      | none => exact (createGenerator_good s h).1
  | none =>
    dsimp only
    cases THEME_PRESETS.find?
        (fun pre => pre.keywords.any (fun k => jsIncludes (jsToLower pr) k)) with
    | some matched => exact h
    | none => exact (createGenerator_good s h).1

/-- The mesh-count stage preserves state goodness. -/
theorem genericMeshCount_good (pr : String) (seed : Nat) (hints : PromptHints)
    (h : GoodState seed) : GoodState (genericMeshCount pr seed hints).2 := by
  unfold genericMeshCount
  dsimp only
  have h1 := pickTheme_good pr seed hints h
  cases hints.meshTarget with
  | some t => exact h1
  | none => exact (createGenerator_good _ h1).1

/-- The template blueprint's meshes all have metalness and roughness in [0,1]
(their materials are hand-authored constants). -/
theorem tryTemplateSpec_materials (pr : String) (hints : PromptHints) (seed : Nat) :
    ∀ bp, tryTemplateSpec pr hints seed = some bp →
      ∀ m ∈ bp.meshes, matInRange m.material := by
  intro bp hbp m hm
  unfold tryTemplateSpec SHAPE_TEMPLATES at hbp
  cases hf : includesAny (jsToLower pr) ["cricket bat", "bat"] with
  | false => simp [List.find?, hf] at hbp
  | true =>
    simp only [List.find?, hf] at hbp
    injection hbp with hbp
    subst hbp
    dsimp only at hm
    unfold cricketBatBuildMeshes at hm
    dsimp only at hm
    rcases List.mem_cons.1 hm with rfl | hm2
    · exact ⟨by norm_num, by norm_num, by norm_num, by norm_num⟩
    rcases List.mem_cons.1 hm2 with rfl | hm3
    · exact ⟨by norm_num, by norm_num, by norm_num, by norm_num⟩
    rcases List.mem_cons.1 hm3 with rfl | hm4
    · exact ⟨by norm_num, by norm_num, by norm_num, by norm_num⟩
    · exact absurd hm4 (List.not_mem_nil m)


/-! ## C7 — range containment -/

/-- C7 (amended): every mesh of every blueprint — template path included — has
metalness and roughness in [0,1]; and whenever the derived seed is not a
multiple of 2147483647 (so the LCG never degenerates), every mesh of a
generic-path blueprint has its geometry parameters inside the kind-specific
ranges. (For the degenerate seeds the draws are negative and the ranges fail
— see the counterexample.) -/
theorem c7_range_containment (p : Option String) :
    (∀ m ∈ blueprintMeshes p, matInRange m.material) ∧
    (createSeed (fallbackPrompt p) % 2147483647 ≠ 0 → templateHit p = false →
      ∀ m ∈ blueprintMeshes p, geomInRange m.geometry) := by
  constructor
  · intro m hm
    unfold blueprintMeshes at hm
    cases hg : generateModelSpec p with
    | none => rw [hg] at hm; exact absurd hm (List.not_mem_nil m)
    | some bp =>
      rw [hg] at hm
      dsimp only at hm
      unfold generateModelSpec at hg
      dsimp only at hg
      cases htt : tryTemplateSpec (fallbackPrompt p) (analyzePromptHints (fallbackPrompt p))
          (createSeed (fallbackPrompt p)) with
      | some t =>
        rw [htt] at hg
        injection hg with hg
        subst hg
        exact tryTemplateSpec_materials _ _ _ _ htt m hm
      | none =>
        rw [htt] at hg
        rw [genericModelSpec_eq] at hg
        cases hth : (pickTheme (fallbackPrompt p) (createSeed (fallbackPrompt p))
            (analyzePromptHints (fallbackPrompt p))).1 with
        | none => rw [hth] at hg; exact absurd hg (by simp)
        | some theme =>
          rw [hth] at hg
          injection hg with hg
          subst hg
          exact meshLoop_material _ _ _ _ _ _ m hm
  · intro hseed hT m hm
    have hgen := generateModelSpec_generic p hT
    unfold blueprintMeshes at hm
    rw [hgen, genericModelSpec_eq] at hm
    cases hth : (pickTheme (fallbackPrompt p) (createSeed (fallbackPrompt p))
        (analyzePromptHints (fallbackPrompt p))).1 with
    | none => rw [hth] at hm; exact absurd hm (List.not_mem_nil m)
    | some theme =>
      rw [hth] at hm
      dsimp only at hm
      exact meshLoop_geometry _ _ _ _ _ _
        (genericMeshCount_good _ _ _ hseed) m hm

/-- Witness for C7 at "robot in space" (whose seed 2077528391 is not a
multiple of 2147483647). -/
theorem c7_range_containment_witness :
    (createSeed (fallbackPrompt (some "robot in space")) % 2147483647 ≠ 0 ∧
      templateHit (some "robot in space") = false) ∧
    ((∀ m ∈ blueprintMeshes (some "robot in space"), matInRange m.material) ∧
      (∀ m ∈ blueprintMeshes (some "robot in space"), geomInRange m.geometry)) :=
  ⟨⟨by decide, by decide⟩,
    ⟨(c7_range_containment (some "robot in space")).1,
      (c7_range_containment (some "robot in space")).2 (by decide) (by decide)⟩⟩

/-- C7 counterexample: the prompt "robot 2247111167" hashes to seed 0
(its SHA-256 digest starts with four zero bytes), the LCG state collapses to
0 and every draw is −1/2147483646: the generic path then emits a single
icosahedron whose radius 25769803747/21474836460 lies BELOW the claimed
lower bound 1.2 and whose detail is −1, outside {0,1}. -/
theorem c7_cex_degenerate_seed :
    templateHit (some "robot 2247111167") = false ∧
    createSeed (fallbackPrompt (some "robot 2247111167")) = 0 ∧
    ((generateModelSpec (some "robot 2247111167")).bind (fun bp => bp.meshes.head?)).map
        (·.geometry) =
      some (.icosahedron (25769803747 / 21474836460) (-1)) ∧
    (25769803747 / 21474836460 : ℚ) < 1.2 ∧
    ¬ ((-1 : ℤ) = 0 ∨ (-1 : ℤ) = 1) := by
  exact ⟨by decide, by decide, by decide, by norm_num, by decide⟩

end NebulaForge
